import Mathlib

/-!
Shallow embedding of the phase-polynomial benchmarking harness
(src/src/phase_poly_benchmarks: benchmarks.py, cli.py, result.py).

External pytket / pyzx library operations and system facilities are kept
opaque, as fields of an environment record; the repository's own control
flow, data flow and arithmetic are translated directly from the Python
source. Randomness (the calls into Python's random module) is an explicit
parameter together with the documented contracts of those calls.
-/

namespace PhasePolyBench

/-- One circuit operation. The repository's own code only ever inserts
Pauli exponential boxes (add_random_poly_exp_box); opaque library
transforms may produce arbitrary operations, covered by the cx and other
constructors. An axis label Pauli(randint(0, 3)) is modelled as its
numeric index below 4. -/
inductive Op where
  | pauliExpBox (paulis : List ℕ) (phase : ℚ) (targets : List ℕ)
  | cx (control target : ℕ)
  | other (name : String)
deriving DecidableEq

/-- pytket Circuit: a qubit count and an ordered operation list. -/
structure Circuit where
  n_qubits : ℕ
  ops : List Op
deriving DecidableEq

/-- pytket Architecture, tagged by which topology builder produced it.
get_line_arch builds Architecture over the pairwise connections of
range(n); SquareGrid(r, c) is the library's grid class. -/
inductive Arch where
  | line (n_qbits : ℕ)
  | squareGrid (rows cols : ℕ)
deriving DecidableEq

/-- result.py: the BenchResult dataclass. time is an elapsed process-time
difference (modelled as a rational); ncx and cx_depth are the int(...)
gate counts of get_counts, hence naturals. -/
structure BenchResult where
  method_name : String
  time : ℚ
  ncx : ℕ
  cx_depth : ℕ
deriving DecidableEq

/-- One line of standard output, at event level (the numeric formatting
of the Python f-strings is not modelled). -/
inductive OutLine where
  | methodLine (method : String) (time : ℚ) (ncx cx_depth : ℕ)
  | fileLine (file method : String) (time : ℚ) (ncx cx_depth : ℕ)
  | timedOut (file : String)
  | errorNoFile (path : String)
  | errorNoDir (path : String)
  | runningBenchmark
  | gridHeader (rows cols : ℕ)
  | gridStrings (n_strings : ℕ) (lo hi : ℤ)
  | lineHeader (n_qubits : ℕ)
  | lineStrings (n_strings : ℕ) (lo hi : ℤ)
deriving DecidableEq

/-- The opaque collaborators: pytket / pyzx library calls and system
facilities the repository delegates to, plus the process clock. Each
field corresponds to one external call site in the source. -/
structure Env where
  /-- Transform.LazyAASPauliGraph(arch).apply -/
  lazyAAS : Arch → Circuit → Circuit
  /-- Transform.LazyAASPauliGraph(arch, route_phase_poly).apply, with the
  pyzx round-trip routing callback route_phase_poly folded in (that
  callback is three external library calls and nothing else). -/
  lazyAASpyzx : Arch → Circuit → Circuit
  /-- Transform.LazySynthesisePauliGraph().apply -/
  lazySynth : Circuit → Circuit
  /-- CXMappingPass(arch, GraphPlacement(arch)).apply -/
  cxMapping : Arch → Circuit → Circuit
  /-- circ.rename_units applied with the map built in place_manually from
  arch.nodes (node labels are library data, kept opaque). -/
  renameUnits : Arch → Circuit → Circuit
  /-- int(circ.n_gates_of_type(OpType.CX)), first component of get_counts. -/
  countCX : Circuit → ℕ
  /-- int(circ.depth_by_type(OpType.CX)), second component of get_counts. -/
  depthCX : Circuit → ℕ
  /-- auto_rebase_pass({OpType.CX, OpType.H, OpType.Rz}).apply -/
  rebase : Circuit → Circuit
  /-- Modelled from the spec: qasm_filename_to_circuit from the repository
  module read_qasm, which is not under src/; per spec section 4.4 it is an
  opaque external file-format parser from a path to a Circuit. -/
  loadCircuit : String → Circuit
  /-- ceil(math.sqrt(n)) as computed in get_square_grid by Python over
  IEEE-754 doubles; the floating-point computation is kept opaque. -/
  ceilSqrt : ℕ → ℕ
  /-- pathlib.Path(p).exists() -/
  fileExists : String → Bool
  /-- pathlib.Path(p).is_dir() -/
  isDir : String → Bool
  /-- Path(p).iterdir() listing, in operating-system order. -/
  listDir : String → List String
  /-- wall-clock running time that a qasm_bench worker process for this
  file would need; Process.join(timeout=60) returns with the worker
  finished exactly when this is at most 60. -/
  workerTime : String → ℕ
  /-- successive readings of time.process_time(), indexed by call number. -/
  clock : ℕ → ℚ

/-- The calls into Python's random module made by add_random_poly_exp_box,
as an explicit source of randomness. pauliChoice i stands for the i-th
randint(0, 3) call of the pauli list comprehension. -/
structure RNG where
  randint : ℤ → ℤ → ℤ
  pauliChoice : ℕ → ℕ
  random : ℚ
  sample : List ℕ → ℕ → List ℕ

/-- The documented contracts of random.randint (inclusive bounds) and
random.sample (k positions chosen without replacement from the
population, so the result has length k, draws from the population, and
is duplicate-free whenever the population is). -/
structure LawfulRNG (rng : RNG) : Prop where
  randint_lower : ∀ a b : ℤ, a ≤ b → a ≤ rng.randint a b
  randint_upper : ∀ a b : ℤ, a ≤ b → rng.randint a b ≤ b
  pauliChoice_lt : ∀ i : ℕ, rng.pauliChoice i < 4
  sample_length : ∀ (pop : List ℕ) (k : ℕ), k ≤ pop.length →
    (rng.sample pop k).length = k
  sample_subset : ∀ (pop : List ℕ) (k : ℕ) (x : ℕ), k ≤ pop.length →
    x ∈ rng.sample pop k → x ∈ pop
  sample_nodup : ∀ (pop : List ℕ) (k : ℕ), k ≤ pop.length →
    pop.Nodup → (rng.sample pop k).Nodup

/-- benchmarks.py get_line_arch. -/
def get_line_arch (n_qbits : ℕ) : Arch := Arch.line n_qbits

/-- benchmarks.py get_square_grid: SquareGrid(side, side) with
side = ceil(sqrt(n_qubits)) computed in floating point (env.ceilSqrt). -/
def get_square_grid (env : Env) (n_qubits : ℕ) : Arch :=
  Arch.squareGrid (env.ceilSqrt n_qubits) (env.ceilSqrt n_qubits)

/-- benchmarks.py place_manually: circ.rename_units with the map
built from enumerate(arch.nodes). -/
def place_manually (env : Env) (arch : Arch) (circ : Circuit) : Circuit :=
  env.renameUnits arch circ

/-- benchmarks.py add_random_poly_exp_box. The two Python assert
statements are modelled as the none branches; on success the returned
box size is paired with the mutated circuit. -/
def add_random_poly_exp_box (rng : RNG) (circ : Circuit) (min_size max_size : ℤ) :
    Option (ℤ × Circuit) :=
  if 0 < min_size then
    if min_size ≤ max_size then
      let circ_size : ℤ := (circ.n_qubits : ℤ)
      let used_min_size := if min_size ≤ circ_size then min_size else circ_size
      let used_max_size := if max_size ≤ circ_size then max_size else circ_size
      let box_size := rng.randint used_min_size used_max_size
      let paulis := (List.range box_size.toNat).map rng.pauliChoice
      let target_qubits := rng.sample (List.range circ.n_qubits) box_size.toNat
      some (box_size,
        Circuit.mk circ.n_qubits
          (circ.ops ++ [Op.pauliExpBox paulis rng.random target_qubits]))
    else none
  else none

/-- The final states of the three circuits of benchmarks.py run_trafos
together with its returned results list. circ is the final state of the
caller's circuit object; circ2 and circ3 are those of the two
circ.copy() copies. -/
structure TrafoState where
  results : List BenchResult
  circ : Circuit
  circ2 : Circuit
  circ3 : Circuit
deriving DecidableEq

/-- benchmarks.py run_trafos. The clock readings 0 to 5 are the six
successive time.process_time() calls; get_counts is env.countCX and
env.depthCX. -/
def run_trafos (env : Env) (arch : Arch) (circ : Circuit) : TrafoState :=
  let circ2 := circ
  let circ3 := circ
  let c1 := env.lazyAAS arch (place_manually env arch circ)
  let r1 := BenchResult.mk "lazy_aas" (env.clock 1 - env.clock 0)
    (env.countCX c1) (env.depthCX c1)
  let c2 := env.lazyAASpyzx arch (place_manually env arch circ2)
  let r2 := BenchResult.mk "lazy_aas_pyzx" (env.clock 3 - env.clock 2)
    (env.countCX c2) (env.depthCX c2)
  let c3 := env.cxMapping arch (env.lazySynth circ3)
  let r3 := BenchResult.mk "lazy_synth_pauli" (env.clock 5 - env.clock 4)
    (env.countCX c3) (env.depthCX c3)
  TrafoState.mk [r1, r2, r3] c1 c2 c3

/-- The print statement inside square_grid and line_arch. -/
def methodLineOf (r : BenchResult) : OutLine :=
  OutLine.methodLine r.method_name r.time r.ncx r.cx_depth

/-- The print statement inside qasm_bench. -/
def fileLineOf (file : String) (r : BenchResult) : OutLine :=
  OutLine.fileLine file r.method_name r.time r.ncx r.cx_depth

/-- The comprehension [add_random_poly_exp_box(circ, mn, mx) for _ in
range(k)]: k successive box insertions into the same circuit, aborting
at the first assertion failure. -/
def addBoxes (rng : RNG) : ℕ → Circuit → ℤ → ℤ → Option Circuit
  | 0, circ, _, _ => some circ
  | k + 1, circ, mn, mx =>
    match add_random_poly_exp_box rng circ mn mx with
    | none => none
    | some (_, circ2) => addBoxes rng k circ2 mn mx

/-- benchmarks.py square_grid: the printed method lines, or none when an
assertion fired while generating the random circuit. -/
def square_grid (env : Env) (rng : RNG) (n_row n_column n_pauli_exp : ℕ)
    (mn mx : ℤ) : Option (List OutLine) :=
  (addBoxes rng n_pauli_exp (Circuit.mk (n_row * n_column) []) mn mx).map
    (fun circ =>
      ((run_trafos env (Arch.squareGrid n_row n_column) circ).results).map methodLineOf)

/-- benchmarks.py line_arch. -/
def line_arch (env : Env) (rng : RNG) (arch_size n_pauli_exp : ℕ)
    (mn mx : ℤ) : Option (List OutLine) :=
  (addBoxes rng n_pauli_exp (Circuit.mk arch_size []) mn mx).map
    (fun circ =>
      ((run_trafos env (get_line_arch arch_size) circ).results).map methodLineOf)

/-- The architecture selection expression of benchmarks.py qasm_bench. -/
def qasm_arch (env : Env) (arch_type : String) (n_qubits : ℕ) : Arch :=
  if arch_type = "line" then get_line_arch n_qubits else get_square_grid env n_qubits

/-- benchmarks.py qasm_bench: load the circuit, choose the architecture
from the pre-rebase qubit count, rebase in place, run the pipelines and
print one file line per result. -/
def qasm_bench (env : Env) (filename arch_type : String) : List OutLine :=
  let circ := env.loadCircuit filename
  let arch := qasm_arch env arch_type circ.n_qubits
  let circ := env.rebase circ
  ((run_trafos env arch circ).results).map (fileLineOf filename)

/-- One worker process run of full_qasm_bench: the file, the parent-side
start and stop instants of the join, whether the exit code was still
None after the 60-unit timeout, and the parent-observable output. -/
structure FileRun where
  file : String
  start : ℕ
  stop : ℕ
  timedOut : Bool
  lines : List OutLine
deriving DecidableEq

/-- benchmarks.py full_qasm_bench unrolled from a given parent-clock
instant: for each directory entry in order, start a qasm_bench worker
process, join it with timeout 60, terminate it, and report the timeout
notice when the worker had not finished. -/
def full_qasm_bench_from (env : Env) (arch_type : String) :
    ℕ → List String → List FileRun
  | _, [] => []
  | t, f :: fs =>
    let d := env.workerTime f
    if d ≤ 60 then
      FileRun.mk f t (t + d) false (qasm_bench env f arch_type)
        :: full_qasm_bench_from env arch_type (t + d) fs
    else
      FileRun.mk f t (t + 60) true [OutLine.timedOut f]
        :: full_qasm_bench_from env arch_type (t + 60) fs

/-- benchmarks.py full_qasm_bench, started at parent-clock instant 0. -/
def full_qasm_bench (env : Env) (arch_type : String) (files : List String) :
    List FileRun :=
  full_qasm_bench_from env arch_type 0 files

/-- cli.py subcommands. -/
inductive Cmd where
  | grid
  | line
  | qasm
  | qasmFull
deriving DecidableEq

/-- The click options of cli.py, gathered into one record; each
subcommand reads only the options it declares. -/
structure CliArgs where
  n_qubits_row : ℕ
  n_qubits_col : ℕ
  n_strings : ℕ
  n_qubits : ℕ
  string_size_min_max : List ℤ
  arch_type : String
  file_name : String
  dir_name : String
deriving DecidableEq

/-- Outcome of one subcommand invocation: its standard output, or a
Python AssertionError escaping to the top level. -/
inductive CmdResult where
  | ok (out : List OutLine)
  | assertFail
deriving DecidableEq

/-- cli.py: dispatch of one subcommand. grid and line assert
len(string_size_min_max) > 1 and then read its first two entries; qasm
checks file existence, qasm-full checks directory existence. -/
def runCmd (env : Env) (rng : RNG) : Cmd → CliArgs → CmdResult
  | Cmd.grid, a =>
    if a.string_size_min_max.length ≤ 1 then CmdResult.assertFail
    else
      let mn := a.string_size_min_max.getD 0 0
      let mx := a.string_size_min_max.getD 1 0
      match square_grid env rng a.n_qubits_row a.n_qubits_col a.n_strings mn mx with
      | none => CmdResult.assertFail
      | some ls =>
        CmdResult.ok (OutLine.gridHeader a.n_qubits_row a.n_qubits_col
          :: OutLine.gridStrings a.n_strings mn mx :: ls)
  | Cmd.line, a =>
    if a.string_size_min_max.length ≤ 1 then CmdResult.assertFail
    else
      let mn := a.string_size_min_max.getD 0 0
      let mx := a.string_size_min_max.getD 1 0
      match line_arch env rng a.n_qubits a.n_strings mn mx with
      | none => CmdResult.assertFail
      | some ls =>
        CmdResult.ok (OutLine.lineHeader a.n_qubits
          :: OutLine.lineStrings a.n_strings mn mx :: ls)
  | Cmd.qasm, a =>
    if env.fileExists a.file_name then
      CmdResult.ok (OutLine.runningBenchmark :: qasm_bench env a.file_name a.arch_type)
    else CmdResult.ok [OutLine.errorNoFile a.file_name]
  | Cmd.qasmFull, a =>
    if env.isDir a.dir_name then
      CmdResult.ok (OutLine.runningBenchmark ::
        ((full_qasm_bench env a.arch_type (env.listDir a.dir_name)).map FileRun.lines).flatten)
    else CmdResult.ok [OutLine.errorNoDir a.dir_name]

/-- A concrete environment for witnesses: identity transforms, zero
counts, unit clock ticks, every file missing, and one file name that is
slow enough to time out. -/
def envW : Env where
  lazyAAS := fun _ c => c
  lazyAASpyzx := fun _ c => c
  lazySynth := fun c => c
  cxMapping := fun _ c => c
  renameUnits := fun _ c => c
  countCX := fun _ => 0
  depthCX := fun _ => 0
  rebase := fun c => c
  loadCircuit := fun _ => Circuit.mk 1 []
  ceilSqrt := fun n => n
  fileExists := fun _ => false
  isDir := fun _ => false
  listDir := fun _ => []
  workerTime := fun f => if f = "slow" then 100 else 1
  clock := fun i => (i : ℚ)

/-- A variant of envW that disagrees with it on everything the second
and third pipelines use, for the frame witness. -/
def envWalt : Env :=
  { envW with
    lazyAASpyzx := fun _ _ => Circuit.mk 0 []
    lazySynth := fun _ => Circuit.mk 0 []
    cxMapping := fun _ _ => Circuit.mk 0 []
    countCX := fun _ => 7
    depthCX := fun _ => 9 }

/-- A concrete lawful randomness source for witnesses: randint returns
its lower bound and sample takes a prefix of the population. -/
def rngW : RNG where
  randint := fun a _ => a
  pauliChoice := fun _ => 0
  random := 0
  sample := fun pop k => pop.take k

/-- Arguments whose min/max pair is empty, for the command-surface
counterexample and witness. -/
def argsMm0 : CliArgs :=
  CliArgs.mk 4 5 30 20 [] "grid" "f" "d"

/-- Well-formed arguments pointing at a nonexistent file. -/
def argsQ : CliArgs :=
  CliArgs.mk 4 5 30 20 [4, 10] "grid" "g" "d"

lemma lawful_rngW : LawfulRNG rngW := by
  constructor
  · intro a b _
    exact le_refl a
  · intro a b h
    exact h
  · intro i
    show (0 : ℕ) < 4
    omega
  · intro pop k hk
    show (pop.take k).length = k
    simp [List.length_take]
    omega
  · intro pop k x _ hx
    exact List.take_subset k pop hx
  · intro pop k _ hnd
    exact hnd.sublist (List.take_sublist k pop)

lemma envW_clock_mono : Monotone envW.clock := by
  intro a b h
  show (a : ℚ) ≤ (b : ℚ)
  exact_mod_cast h

/-- When both assertions pass, add_random_poly_exp_box inserts exactly one
Pauli exponential box, with size randint over the clamped bounds, one axis
choice per position and a sample of that many target qubits. -/
lemma add_box_pos (rng : RNG) (circ : Circuit) (min_size max_size : ℤ)
    (h1 : 0 < min_size) (h2 : min_size ≤ max_size) :
    add_random_poly_exp_box rng circ min_size max_size
      = some
          (rng.randint (min min_size (circ.n_qubits : ℤ)) (min max_size (circ.n_qubits : ℤ)),
            Circuit.mk circ.n_qubits
              (circ.ops ++
                [Op.pauliExpBox
                  ((List.range
                      (rng.randint (min min_size (circ.n_qubits : ℤ))
                        (min max_size (circ.n_qubits : ℤ))).toNat).map rng.pauliChoice)
                  rng.random
                  (rng.sample (List.range circ.n_qubits)
                    (rng.randint (min min_size (circ.n_qubits : ℤ))
                      (min max_size (circ.n_qubits : ℤ))).toNat)])) := by
  simp only [add_random_poly_exp_box, if_pos h1, if_pos h2, min_def]

/-- The clamped bounds are ordered, so the randint contract applies. -/
lemma clamped_min_le (min_size max_size U : ℤ) (h2 : min_size ≤ max_size) :
    min min_size U ≤ min max_size U :=
  min_le_min h2 le_rfl

/-- C1. For every topology and circuit, run_trafos returns exactly 3
BenchResult records, in fixed order with method names lazy_aas,
lazy_aas_pyzx, lazy_synth_pauli, each with non-negative elapsed time and
non-negative integer ncx and cx_depth, provided the process clock is
monotone. -/
theorem run_trafos_three_results (env : Env) (arch : Arch) (circ : Circuit)
    (hclock : Monotone env.clock) :
    ((run_trafos env arch circ).results).map BenchResult.method_name
        = ["lazy_aas", "lazy_aas_pyzx", "lazy_synth_pauli"]
    ∧ ((run_trafos env arch circ).results).length = 3
    ∧ ∀ r ∈ (run_trafos env arch circ).results,
        0 ≤ r.time ∧ 0 ≤ (r.ncx : ℤ) ∧ 0 ≤ (r.cx_depth : ℤ) := by
  refine ⟨rfl, rfl, ?_⟩
  intro r hr
  have h01 : env.clock 0 ≤ env.clock 1 := hclock (by omega)
  have h23 : env.clock 2 ≤ env.clock 3 := hclock (by omega)
  have h45 : env.clock 4 ≤ env.clock 5 := hclock (by omega)
  simp only [run_trafos, List.mem_cons, List.not_mem_nil, or_false] at hr
  rcases hr with h | h | h
  · subst h
    exact ⟨sub_nonneg.mpr h01, Int.natCast_nonneg _, Int.natCast_nonneg _⟩
  · subst h
    exact ⟨sub_nonneg.mpr h23, Int.natCast_nonneg _, Int.natCast_nonneg _⟩
  · subst h
    exact ⟨sub_nonneg.mpr h45, Int.natCast_nonneg _, Int.natCast_nonneg _⟩

/-- Witness for C1 at a concrete environment, topology and circuit. -/
theorem run_trafos_three_results_witness :
    (((run_trafos envW (Arch.line 2) (Circuit.mk 2 [])).results).map BenchResult.method_name
        = ["lazy_aas", "lazy_aas_pyzx", "lazy_synth_pauli"])
    ∧ ((run_trafos envW (Arch.line 2) (Circuit.mk 2 [])).results).length = 3
    ∧ ∀ r ∈ (run_trafos envW (Arch.line 2) (Circuit.mk 2 [])).results,
        0 ≤ r.time ∧ 0 ≤ (r.ncx : ℤ) ∧ 0 ≤ (r.cx_depth : ℤ) :=
  run_trafos_three_results envW (Arch.line 2) (Circuit.mk 2 []) envW_clock_mono

/-- C2. run_trafos copies the input circuit twice before any pipeline
runs; the original object is transformed by pipeline A only (placement
renaming then the lazy architecture-aware synthesis), the copies by
pipelines B and C applied to the pristine input, and the final state of
the original does not depend on anything pipelines B and C use. -/
theorem run_trafos_frame (env : Env) (arch : Arch) (circ : Circuit) :
    (run_trafos env arch circ).circ = env.lazyAAS arch (place_manually env arch circ)
    ∧ (run_trafos env arch circ).circ2 = env.lazyAASpyzx arch (place_manually env arch circ)
    ∧ (run_trafos env arch circ).circ3 = env.cxMapping arch (env.lazySynth circ)
    ∧ ∀ env2 : Env, env2.renameUnits = env.renameUnits → env2.lazyAAS = env.lazyAAS →
        (run_trafos env2 arch circ).circ = (run_trafos env arch circ).circ := by
  refine ⟨rfl, rfl, rfl, ?_⟩
  intro env2 hren haas
  simp [run_trafos, place_manually, hren, haas]

/-- Witness for C2: an environment disagreeing on everything pipelines B
and C use leaves the original circuit's final state unchanged. -/
theorem run_trafos_frame_witness :
    (run_trafos envWalt (Arch.line 2) (Circuit.mk 2 [])).circ
      = (run_trafos envW (Arch.line 2) (Circuit.mk 2 [])).circ :=
  (run_trafos_frame envW (Arch.line 2) (Circuit.mk 2 [])).2.2.2 envWalt rfl rfl

/-- C3. With a lawful random source: whenever 0 < min_size <= max_size,
add_random_poly_exp_box succeeds, returns a size between
min(min_size, U) and min(max_size, U) for U the unit count, and grows
the operation list by exactly one; when the precondition fails it fails
with an assertion (modelled as none). -/
theorem add_random_poly_exp_box_spec (rng : RNG) (hrng : LawfulRNG rng)
    (circ : Circuit) (min_size max_size : ℤ) :
    (0 < min_size → min_size ≤ max_size →
      ∃ sz circ2,
        add_random_poly_exp_box rng circ min_size max_size = some (sz, circ2)
        ∧ min min_size (circ.n_qubits : ℤ) ≤ sz
        ∧ sz ≤ min max_size (circ.n_qubits : ℤ)
        ∧ circ2.ops.length = circ.ops.length + 1)
    ∧ (¬ (0 < min_size ∧ min_size ≤ max_size) →
        add_random_poly_exp_box rng circ min_size max_size = none) := by
  constructor
  · intro h1 h2
    have hord : min min_size (circ.n_qubits : ℤ) ≤ min max_size (circ.n_qubits : ℤ) :=
      clamped_min_le min_size max_size _ h2
    rw [add_box_pos rng circ min_size max_size h1 h2]
    refine ⟨_, _, rfl, hrng.randint_lower _ _ hord, hrng.randint_upper _ _ hord, ?_⟩
    simp
  · intro h
    by_cases h1 : 0 < min_size
    · have h2 : ¬ min_size ≤ max_size := fun hc => h ⟨h1, hc⟩
      simp [add_random_poly_exp_box, if_pos h1, if_neg h2]
    · simp [add_random_poly_exp_box, if_neg h1]

/-- Witness for C3 at a concrete lawful random source and circuit. -/
theorem add_random_poly_exp_box_spec_witness :
    (∃ sz circ2,
        add_random_poly_exp_box rngW (Circuit.mk 3 []) 2 5 = some (sz, circ2)
        ∧ min (2 : ℤ) ((Circuit.mk 3 []).n_qubits : ℤ) ≤ sz
        ∧ sz ≤ min (5 : ℤ) ((Circuit.mk 3 []).n_qubits : ℤ)
        ∧ circ2.ops.length = (Circuit.mk 3 []).ops.length + 1)
    ∧ add_random_poly_exp_box rngW (Circuit.mk 3 []) 0 5 = none :=
  ⟨(add_random_poly_exp_box_spec rngW lawful_rngW (Circuit.mk 3 []) 2 5).1
      (by decide) (by decide),
    (add_random_poly_exp_box_spec rngW lawful_rngW (Circuit.mk 3 []) 0 5).2 (by decide)⟩

/-- C8. With a lawful random source and the assertions passing, the
generated block's axis-label list has length equal to the returned size,
and its target list is that many distinct in-range unit indices, sampled
without replacement from the unit indices. -/
theorem add_random_poly_exp_box_block_shape (rng : RNG) (hrng : LawfulRNG rng)
    (circ : Circuit) (min_size max_size : ℤ)
    (h1 : 0 < min_size) (h2 : min_size ≤ max_size) :
    ∃ sz paulis targets,
      add_random_poly_exp_box rng circ min_size max_size
        = some (sz, Circuit.mk circ.n_qubits
            (circ.ops ++ [Op.pauliExpBox paulis rng.random targets]))
      ∧ paulis.length = sz.toNat
      ∧ targets.length = sz.toNat
      ∧ targets.Nodup
      ∧ ∀ t ∈ targets, t < circ.n_qubits := by
  have hord : min min_size (circ.n_qubits : ℤ) ≤ min max_size (circ.n_qubits : ℤ) :=
    clamped_min_le min_size max_size _ h2
  have hsz_le : rng.randint (min min_size (circ.n_qubits : ℤ)) (min max_size (circ.n_qubits : ℤ))
      ≤ (circ.n_qubits : ℤ) :=
    le_trans (hrng.randint_upper _ _ hord) (min_le_right _ _)
  have hk : (rng.randint (min min_size (circ.n_qubits : ℤ))
      (min max_size (circ.n_qubits : ℤ))).toNat ≤ (List.range circ.n_qubits).length := by
    rw [List.length_range]
    exact Int.toNat_le.mpr hsz_le
  rw [add_box_pos rng circ min_size max_size h1 h2]
  refine ⟨_, _, _, rfl, ?_, ?_, ?_, ?_⟩
  · simp
  · simpa using hrng.sample_length _ _ hk
  · exact hrng.sample_nodup _ _ hk (List.nodup_range _)
  · intro t ht
    exact List.mem_range.mp (hrng.sample_subset _ _ t hk ht)

/-- Witness for C8 at a concrete lawful random source and circuit. -/
theorem add_random_poly_exp_box_block_shape_witness :
    ∃ sz paulis targets,
      add_random_poly_exp_box rngW (Circuit.mk 3 []) 2 5
        = some (sz, Circuit.mk (Circuit.mk 3 []).n_qubits
            ((Circuit.mk 3 []).ops ++ [Op.pauliExpBox paulis rngW.random targets]))
      ∧ paulis.length = sz.toNat
      ∧ targets.length = sz.toNat
      ∧ targets.Nodup
      ∧ ∀ t ∈ targets, t < (Circuit.mk 3 []).n_qubits :=
  add_random_poly_exp_box_block_shape rngW lawful_rngW (Circuit.mk 3 []) 2 5
    (by decide) (by decide)

lemma batch_from_map_file (env : Env) (a : String) (files : List String) :
    ∀ t : ℕ, (full_qasm_bench_from env a t files).map FileRun.file = files := by
  induction files with
  | nil => intro t; rfl
  | cons f fs ih =>
    intro t
    by_cases hd : env.workerTime f ≤ 60 <;>
      simp [full_qasm_bench_from, hd, ih]

lemma batch_from_head_start (env : Env) (a : String) (files : List String) (t : ℕ)
    (r : FileRun) (h : (full_qasm_bench_from env a t files).head? = some r) :
    r.start = t := by
  cases files with
  | nil => simp [full_qasm_bench_from] at h
  | cons f fs =>
    by_cases hd : env.workerTime f ≤ 60 <;>
      simp only [full_qasm_bench_from, hd, if_pos, if_neg, ite_true, ite_false,
        List.head?_cons, Option.some.injEq] at h <;>
      subst h <;> rfl

lemma batch_from_chain (env : Env) (a : String) (files : List String) :
    ∀ t : ℕ,
      List.Chain' (fun r s => s.start = r.stop) (full_qasm_bench_from env a t files) := by
  induction files with
  | nil => intro t; simp [full_qasm_bench_from]
  | cons f fs ih =>
    intro t
    by_cases hd : env.workerTime f ≤ 60 <;>
      simp only [full_qasm_bench_from, hd, ite_true, ite_false] <;>
      refine List.chain'_cons'.mpr ⟨?_, ih _⟩ <;>
      intro s hs <;>
      exact batch_from_head_start env a fs _ s hs

lemma batch_from_mem (env : Env) (a : String) (files : List String) :
    ∀ (t : ℕ) (r : FileRun), r ∈ full_qasm_bench_from env a t files →
      (r.stop ≤ r.start + 60)
      ∧ (60 < env.workerTime r.file →
          r.timedOut = true ∧ r.lines = [OutLine.timedOut r.file])
      ∧ (env.workerTime r.file ≤ 60 →
          r.timedOut = false ∧ r.lines = qasm_bench env r.file a) := by
  induction files with
  | nil => intro t r h; simp [full_qasm_bench_from] at h
  | cons f fs ih =>
    intro t r h
    by_cases hd : env.workerTime f ≤ 60
    · simp only [full_qasm_bench_from, hd, ite_true, List.mem_cons] at h
      rcases h with h | h
      · subst h
        refine ⟨by simp; omega, ?_, ?_⟩
        · intro h60
          exact absurd hd (by simpa using h60)
        · intro _
          exact ⟨rfl, rfl⟩
      · exact ih _ r h
    · simp only [full_qasm_bench_from, hd, ite_false, List.mem_cons] at h
      rcases h with h | h
      · subst h
        refine ⟨by simp, ?_, ?_⟩
        · intro _
          exact ⟨rfl, rfl⟩
        · intro h60
          exact absurd h60 hd
      · exact ih _ r h

/-- C4. Batch mode is strictly sequential: the worker runs come in
directory order, each one's join starts exactly when the previous one
stopped, the parent waits at most 60 time units per file, a worker that
has not finished by then is reported with the timeout notice for its
file, and a worker that finishes in time contributes its qasm_bench
output. -/
theorem full_qasm_bench_sequential_timeout (env : Env) (a : String)
    (files : List String) :
    ((full_qasm_bench env a files).map FileRun.file = files)
    ∧ List.Chain' (fun r s => s.start = r.stop) (full_qasm_bench env a files)
    ∧ (∀ r ∈ full_qasm_bench env a files, r.stop ≤ r.start + 60)
    ∧ (∀ r ∈ full_qasm_bench env a files, 60 < env.workerTime r.file →
        r.timedOut = true ∧ r.lines = [OutLine.timedOut r.file])
    ∧ (∀ r ∈ full_qasm_bench env a files, env.workerTime r.file ≤ 60 →
        r.timedOut = false ∧ r.lines = qasm_bench env r.file a) :=
  ⟨batch_from_map_file env a files 0,
    batch_from_chain env a files 0,
    fun r hr => (batch_from_mem env a files 0 r hr).1,
    fun r hr => (batch_from_mem env a files 0 r hr).2.1,
    fun r hr => (batch_from_mem env a files 0 r hr).2.2⟩

/-- Witness for C4: two files, the second of which times out and is
reported with the timeout notice starting right when the first stopped. -/
theorem full_qasm_bench_sequential_timeout_witness :
    ((full_qasm_bench envW "grid" ["fast", "slow"]).map FileRun.file = ["fast", "slow"])
    ∧ (FileRun.mk "slow" 1 61 true [OutLine.timedOut "slow"]).timedOut = true
    ∧ (FileRun.mk "slow" 1 61 true [OutLine.timedOut "slow"]).lines
        = [OutLine.timedOut "slow"] :=
  ⟨(full_qasm_bench_sequential_timeout envW "grid" ["fast", "slow"]).1,
    (full_qasm_bench_sequential_timeout envW "grid" ["fast", "slow"]).2.2.2.1
      (FileRun.mk "slow" 1 61 true [OutLine.timedOut "slow"]) (by decide) (by decide)⟩

/-- C6 counterexample. Not every subcommand validates the min/max pair:
with an empty min/max list, the qasm subcommand does not fail with an
assertion; it proceeds (here, to its file-existence check and printed
error), because it declares no min/max option at all. -/
theorem cli_minmax_validation_counterexample :
    argsMm0.string_size_min_max.length < 2
    ∧ runCmd envW rngW Cmd.qasm argsMm0 = CmdResult.ok [OutLine.errorNoFile "f"]
    ∧ runCmd envW rngW Cmd.qasm argsMm0 ≠ CmdResult.assertFail := by
  decide

/-- C6 as amended. The grid and line subcommands fail with an assertion
whenever the min/max pair has fewer than 2 elements; the qasm and
qasm-full subcommands declare no min/max option, and their behavior is
independent of any min/max value. -/
theorem grid_line_validate_minmax (env : Env) (rng : RNG) (a : CliArgs)
    (h : a.string_size_min_max.length < 2) :
    runCmd env rng Cmd.grid a = CmdResult.assertFail
    ∧ runCmd env rng Cmd.line a = CmdResult.assertFail
    ∧ ∀ l : List ℤ,
        runCmd env rng Cmd.qasm { a with string_size_min_max := l }
            = runCmd env rng Cmd.qasm a
        ∧ runCmd env rng Cmd.qasmFull { a with string_size_min_max := l }
            = runCmd env rng Cmd.qasmFull a := by
  have h1 : a.string_size_min_max.length ≤ 1 := by omega
  refine ⟨by simp [runCmd, h1], by simp [runCmd, h1], ?_⟩
  intro l
  exact ⟨rfl, rfl⟩

/-- Witness for the amended C6 at concrete arguments with an empty
min/max pair. -/
theorem grid_line_validate_minmax_witness :
    runCmd envW rngW Cmd.grid argsMm0 = CmdResult.assertFail
    ∧ runCmd envW rngW Cmd.line argsMm0 = CmdResult.assertFail :=
  ⟨(grid_line_validate_minmax envW rngW argsMm0 (by decide)).1,
    (grid_line_validate_minmax envW rngW argsMm0 (by decide)).2.1⟩

/-- C7. No operation of the program mutates a BenchResult after its
construction: every result line any entry point prints is the verbatim
rendering of the corresponding record exactly as run_trafos constructed
it. -/
theorem bench_results_printed_unmodified :
    (∀ (env : Env) (f a : String),
      qasm_bench env f a
        = ((run_trafos env (qasm_arch env a (env.loadCircuit f).n_qubits)
            (env.rebase (env.loadCircuit f))).results).map (fileLineOf f))
    ∧ (∀ (env : Env) (rng : RNG) (r c s : ℕ) (mn mx : ℤ) (ls : List OutLine),
        square_grid env rng r c s mn mx = some ls →
        ∃ circ, addBoxes rng s (Circuit.mk (r * c) []) mn mx = some circ
          ∧ ls = ((run_trafos env (Arch.squareGrid r c) circ).results).map methodLineOf)
    ∧ (∀ (env : Env) (rng : RNG) (q s : ℕ) (mn mx : ℤ) (ls : List OutLine),
        line_arch env rng q s mn mx = some ls →
        ∃ circ, addBoxes rng s (Circuit.mk q []) mn mx = some circ
          ∧ ls = ((run_trafos env (get_line_arch q) circ).results).map methodLineOf) := by
  refine ⟨fun env f a => rfl, ?_, ?_⟩
  · intro env rng r c s mn mx ls h
    unfold square_grid at h
    cases hb : addBoxes rng s (Circuit.mk (r * c) []) mn mx with
    | none => rw [hb] at h; simp at h
    | some circ =>
      rw [hb] at h
      simp only [Option.map_some', Option.some.injEq] at h
      exact ⟨circ, rfl, h.symm⟩
  · intro env rng q s mn mx ls h
    unfold line_arch at h
    cases hb : addBoxes rng s (Circuit.mk q []) mn mx with
    | none => rw [hb] at h; simp at h
    | some circ =>
      rw [hb] at h
      simp only [Option.map_some', Option.some.injEq] at h
      exact ⟨circ, rfl, h.symm⟩

/-- Witness for C7: a concrete square_grid run whose printed lines are
the constructed records rendered unchanged. -/
theorem bench_results_printed_unmodified_witness :
    ∃ circ, addBoxes rngW 0 (Circuit.mk (1 * 1) []) 2 5 = some circ
      ∧ [OutLine.methodLine "lazy_aas" (envW.clock 1 - envW.clock 0) 0 0,
          OutLine.methodLine "lazy_aas_pyzx" (envW.clock 3 - envW.clock 2) 0 0,
          OutLine.methodLine "lazy_synth_pauli" (envW.clock 5 - envW.clock 4) 0 0]
        = ((run_trafos envW (Arch.squareGrid 1 1) circ).results).map methodLineOf :=
  bench_results_printed_unmodified.2.1 envW rngW 1 1 0 2 5
    [OutLine.methodLine "lazy_aas" (envW.clock 1 - envW.clock 0) 0 0,
      OutLine.methodLine "lazy_aas_pyzx" (envW.clock 3 - envW.clock 2) 0 0,
      OutLine.methodLine "lazy_synth_pauli" (envW.clock 5 - envW.clock 4) 0 0] rfl

/-- C9. When the file does not exist, the qasm subcommand prints exactly
the could-not-find-file error and returns; its outcome does not depend
on any other collaborator (no loading, rebasing or pipeline is
consulted). -/
theorem qasm_missing_file (env : Env) (rng : RNG) (a : CliArgs)
    (h : env.fileExists a.file_name = false) :
    runCmd env rng Cmd.qasm a = CmdResult.ok [OutLine.errorNoFile a.file_name]
    ∧ ∀ (env2 : Env) (rng2 : RNG), env2.fileExists a.file_name = false →
        runCmd env2 rng2 Cmd.qasm a = runCmd env rng Cmd.qasm a := by
  have e1 : runCmd env rng Cmd.qasm a = CmdResult.ok [OutLine.errorNoFile a.file_name] := by
    simp [runCmd, h]
  refine ⟨e1, ?_⟩
  intro env2 rng2 h2
  rw [e1]
  simp [runCmd, h2]

/-- Witness for C9 at a concrete missing file. -/
theorem qasm_missing_file_witness :
    runCmd envW rngW Cmd.qasm argsQ = CmdResult.ok [OutLine.errorNoFile "g"] :=
  (qasm_missing_file envW rngW argsQ rfl).1

/-- C10. qasm_bench selects the line topology exactly when arch_type is
the string line; every other value, misspellings included, silently
selects the smallest-square-grid topology, with no error path for
unrecognized names. -/
theorem qasm_arch_selection (env : Env) (a : String) (n : ℕ) :
    (a = "line" → qasm_arch env a n = Arch.line n)
    ∧ (a ≠ "line" → qasm_arch env a n = Arch.squareGrid (env.ceilSqrt n) (env.ceilSqrt n))
    ∧ ((∃ m, qasm_arch env a n = Arch.line m) ↔ a = "line") := by
  refine ⟨?_, ?_, ?_, ?_⟩
  · intro h
    simp [qasm_arch, h, get_line_arch]
  · intro h
    simp [qasm_arch, h, get_square_grid]
  · rintro ⟨m, hm⟩
    by_contra hne
    simp [qasm_arch, hne, get_square_grid] at hm
  · intro h
    exact ⟨n, by simp [qasm_arch, h, get_line_arch]⟩

/-- Witness for C10: a misspelled topology name silently selects the
square grid. -/
theorem qasm_arch_selection_witness :
    qasm_arch envW "Line" 3 = Arch.squareGrid (envW.ceilSqrt 3) (envW.ceilSqrt 3) :=
  (qasm_arch_selection envW "Line" 3).2.1 (by decide)

end PhasePolyBench
